import Mathlib

/-!
Verification of the generation-cache-and-session-orchestrator of the
pocket-soul repository against its natural-language specification.

The development shallowly embeds the relevant JavaScript modules:

* `CustomCharacterGenerator` (cache-key fingerprinting, manifest cache,
  variant generation, user-request parsing) from
  `integrated_app/lib/custom-character-generator.js`;
* `VideoEmotionMapper` (emotion → standard asset resolution with fallback
  chains) from `integrated_app/lib/video-emotion-mapper.js`;
* the socket handlers of `integrated_app/server.js`
  (`audio-for-transcription`, `text-input`, `interrupt`, `reset`) together
  with the helper functions `detectCustomCharacterRequest` and
  `detectEmotionFromText`.

External collaborators (Whisper/ElevenLabs/Gemini/fal network calls, the
file system, wall-clock timestamps) are modelled as oracle parameters: the
embedded functions are deterministic functions of the program state and of
the oracle answers, exactly mirroring the control flow of the source.
-/

namespace PocketSoul

/-! ## Cache-key fingerprinting

Source: `custom-character-generator.js`, `generateCacheKey`:

    const normalized = `${emotion}_${customDescription}`.toLowerCase()
        .replace(/[^a-z0-9]/g, '_');
    const hash = crypto.createHash('md5').update(normalized)
        .digest('hex').substring(0, 8);
    return `${normalized.substring(0, 30)}_${hash}`;

The MD5 digest is abstracted as a parameter `md5hex8 : String → String`
(a fixed deterministic function of the normalized string); everything the
claims state about the key holds for every such function.
-/

/-- A character kept (rather than replaced by `_`) by the
`replace(/[^a-z0-9]/g, '_')` step: lowercase ASCII letter or digit. -/
def isKeyChar (c : Char) : Bool :=
  ('a' ≤ c && c ≤ 'z') || ('0' ≤ c && c ≤ '9')

/-- `toLowerCase()` followed by `replace(/[^a-z0-9]/g, '_')`, applied
characterwise. -/
def normalizeKey (s : String) : String :=
  String.mk (s.data.map (fun c =>
    let lc := c.toLower
    if isKeyChar lc then lc else '_'))

/-- `generateCacheKey(emotion, customDescription)`. -/
def generateCacheKey (md5hex8 : String → String)
    (emotion customDescription : String) : String :=
  let normalized := normalizeKey (emotion ++ "_" ++ customDescription)
  let hash := md5hex8 normalized
  (normalized.take 30) ++ "_" ++ hash

/-! ## AssetCache: manifest and backing store

Source: `custom-character-generator.js`.  The manifest is the JSON object
`this.manifest` (fingerprint → entry, unique keys), the backing store is
the set of files in `this.cacheDir`; both are modelled explicitly.
`saveManifest` (a plain `fs.writeFile` of the in-memory map) is modelled
as succeeding, so the in-memory manifest is the persisted one.
-/

/-- One manifest entry, as written by `generateVariant`. -/
structure ManifestEntry where
  emotion : String
  customDescription : String
  prompt : String
  filename : String
  generatedAt : String
  videoUrl : String
deriving Repr, DecidableEq

/-- The cache's mutable state: the manifest map and the set of files
present in the cache directory. -/
structure CacheState where
  manifest : List (String × ManifestEntry)
  files : List String
deriving Repr, DecidableEq

/-- Remove a fingerprint's binding from the manifest
(`delete this.manifest[cacheKey]`). -/
def eraseKey (m : List (String × ManifestEntry)) (k : String) :
    List (String × ManifestEntry) :=
  m.filter (fun p => p.1 ≠ k)

/-- `buildCustomPrompt`: the fixed per-emotion prompt table. -/
def emotionPromptTable : List (String × String × String) :=
  [("joy", "golden yellow character, joyful and happy",
    "bouncing cheerfully, mouth opening and closing as if talking happily, continuous speaking movements"),
   ("anger", "bright red character, angry and furious",
    "shaking with rage, mouth opening aggressively as if yelling, steam effects, continuous angry talking"),
   ("fear", "deep purple character, fearful and nervous",
    "trembling nervously, mouth quivering as if speaking fearfully, continuous worried talking"),
   ("disgust", "bright green character, disgusted and repulsed",
    "recoiling with disgust, mouth twisted as if complaining, continuous disgusted talking"),
   ("anxiety", "bright orange character, anxious and worried",
    "fidgeting constantly, mouth moving rapidly as if rambling nervously, continuous anxious talking"),
   ("sadness", "deep blue character, sad and melancholy",
    "drooping sadly, mouth turned down as if crying softly, continuous sad talking"),
   ("calm", "soft cyan character, peaceful and serene",
    "floating peacefully, mouth moving steadily as if speaking calmly, continuous gentle talking"),
   ("neutral", "translucent character with soft glow",
    "gentle floating, mouth moving as if having a conversation, continuous talking")]

/-- `buildCustomPrompt(emotion, customDescription)`; unknown emotions fall
back to the `neutral` row (`emotionPrompts[emotion] || emotionPrompts.neutral`). -/
def buildCustomPrompt (emotion customDescription : String) : String :=
  let config := (emotionPromptTable.lookup emotion).getD
    ("translucent character with soft glow",
     "gentle floating, mouth moving as if having a conversation, continuous talking")
  "The " ++ config.1 ++ " dressed as a " ++ customDescription ++ ", " ++
    config.2 ++ ", maintaining the cute ghost-like shape, 8 seconds"

/-- Result of `checkCache`. -/
inductive CheckResult
  | hit (path : String) (metadata : ManifestEntry)
  | miss
deriving Repr, DecidableEq

/-- `checkCache(emotion, customDescription)`: manifest lookup plus
backing-file verification; a manifest entry whose file is gone is evicted
(self-healing) and the call reports a miss. -/
def checkCache (md5hex8 : String → String) (st : CacheState)
    (emotion customDescription : String) : CacheState × CheckResult :=
  let cacheKey := generateCacheKey md5hex8 emotion customDescription
  match st.manifest.lookup cacheKey with
  | some entry =>
      if st.files.contains entry.filename then
        (st, .hit ("/videos/custom_variants/" ++ entry.filename) entry)
      else
        ({ st with manifest := eraseKey st.manifest cacheKey }, .miss)
  | none => (st, .miss)

/-- Answers of the external collaborators consulted by one
`generateVariant` run.  `videoUrl = none` covers every pre-download
failure (provider exception, the two-minute `Promise.race` timeout, a
response with no extractable video URL); `downloadOk = false` models a
throwing `curl` download. -/
structure GenOracle where
  videoUrl : Option String
  downloadOk : Bool
  timestamp : String
  generatedAt : String
deriving Repr, DecidableEq

/-- Result of `generateVariant`. -/
inductive GenResult
  | success (path : String) (metadata : ManifestEntry)
  | failure (error : String)
deriving Repr, DecidableEq

/-- `generateVariant(emotion, customDescription)`: on a provider success
and a successful download it stores the artifact
`<cacheKey>_<timestamp>.mp4`, overwrites the manifest entry for the
fingerprint and persists the manifest; any failure is caught and reported
as `success:false` with the state unchanged. -/
def generateVariant (md5hex8 : String → String) (o : GenOracle)
    (st : CacheState) (emotion customDescription : String) :
    CacheState × GenResult :=
  let cacheKey := generateCacheKey md5hex8 emotion customDescription
  let prompt := buildCustomPrompt emotion customDescription
  match o.videoUrl with
  | none => (st, .failure "No video URL in response")
  | some url =>
      if o.downloadOk then
        let filename := cacheKey ++ "_" ++ o.timestamp ++ ".mp4"
        let entry : ManifestEntry :=
          { emotion := emotion, customDescription := customDescription,
            prompt := prompt, filename := filename,
            generatedAt := o.generatedAt, videoUrl := url }
        ({ manifest := (cacheKey, entry) :: eraseKey st.manifest cacheKey,
           files := filename :: st.files },
         .success ("/videos/custom_variants/" ++ filename) entry)
      else (st, .failure "download failed")

/-- The object returned by `getOrCreateVariant`
(`{success, cached, path?, metadata?, error?}`). -/
structure VariantResult where
  success : Bool
  cached : Bool
  path : Option String
  metadata : Option ManifestEntry
  error : Option String
deriving Repr, DecidableEq

/-- `getOrCreateVariant(emotion, customDescription)`: cache hit returns
the existing entry tagged `cached:true`; a miss delegates to
`generateVariant` and tags the outcome `cached:false`. -/
def getOrCreateVariant (md5hex8 : String → String) (o : GenOracle)
    (st : CacheState) (emotion customDescription : String) :
    CacheState × VariantResult :=
  match checkCache md5hex8 st emotion customDescription with
  | (st', .hit p m) => (st', ⟨true, true, some p, some m, none⟩)
  | (st', .miss) =>
      match generateVariant md5hex8 o st' emotion customDescription with
      | (st'', .success p m) => (st'', ⟨true, false, some p, some m, none⟩)
      | (st'', .failure e) => (st'', ⟨false, false, none, none, some e⟩)

/-- The public path under which a cached entry's artifact is served. -/
def goodPath (entry : ManifestEntry) : String :=
  "/videos/custom_variants/" ++ entry.filename

/-- A digest stand-in used by the concrete witnesses (the claims hold for
every digest function, `md5` included). -/
def md5w : String → String := fun s => s.take 8

/-- Oracle for a successful generation run. -/
def genOracleOk : GenOracle :=
  { videoUrl := some "http://cdn/video.mp4", downloadOk := true,
    timestamp := "2025-01-01T00-00-00-000Z",
    generatedAt := "2025-01-01T00:00:00.000Z" }

/-- The empty cache (fresh manifest, empty cache directory). -/
def emptyCache : CacheState := ⟨[], []⟩

/-! ### Concurrent cache access

`getOrCreateVariant` suspends (`await`) between `checkCache` and the
manifest update inside `generateVariant`; nothing in the source holds a
per-fingerprint lock across that gap.  The model below makes the two
atomic sections of each call explicit and lets a scheduler interleave any
number of calls: phase `start` runs `checkCache` and either finishes (hit)
or moves to `generating`; phase `generating` runs `generateVariant` —
counted as one generation invocation — and finishes.
-/

/-- Program counter of one in-flight `getOrCreateVariant` call. -/
inductive TaskPhase
  | start
  | generating
  | done
deriving Repr, DecidableEq

/-- One in-flight `getOrCreateVariant` call. -/
structure GenTask where
  phase : TaskPhase
  emotion : String
  customDescription : String
  oracle : GenOracle
  result : Option VariantResult
deriving Repr, DecidableEq

/-- The shared cache plus all in-flight calls, with a counter of
generation invocations (calls into the image/video providers). -/
structure SysState where
  cache : CacheState
  tasks : List GenTask
  genCount : Nat
deriving Repr, DecidableEq

/-- Run the next atomic section of task `i`. -/
def stepTask (md5hex8 : String → String) (sys : SysState) (i : Nat) :
    SysState :=
  match sys.tasks[i]? with
  | none => sys
  | some t =>
    match t.phase with
    | .done => sys
    | .start =>
      match checkCache md5hex8 sys.cache t.emotion t.customDescription with
      | (st', .hit p m) =>
          { sys with
            cache := st',
            tasks := sys.tasks.set i
              { t with
                phase := .done,
                result := some ⟨true, true, some p, some m, none⟩ } }
      | (st', .miss) =>
          { sys with
            cache := st',
            tasks := sys.tasks.set i { t with phase := .generating } }
    | .generating =>
      match generateVariant md5hex8 t.oracle sys.cache t.emotion
          t.customDescription with
      | (st', .success p m) =>
          { cache := st',
            genCount := sys.genCount + 1,
            tasks := sys.tasks.set i
              { t with
                phase := .done,
                result := some ⟨true, false, some p, some m, none⟩ } }
      | (st', .failure err) =>
          { cache := st',
            genCount := sys.genCount + 1,
            tasks := sys.tasks.set i
              { t with
                phase := .done,
                result := some ⟨false, false, none, none, some err⟩ } }

/-- Run a whole schedule (list of task indices, each entry one atomic
section). -/
def runSchedule (md5hex8 : String → String) (sched : List Nat)
    (sys : SysState) : SysState :=
  sched.foldl (stepTask md5hex8) sys

/-- A fresh `getOrCreateVariant` call for (emotion, description). -/
def mkTask (e d : String) (o : GenOracle) : GenTask :=
  ⟨.start, e, d, o, none⟩

/-- Second generation oracle with a different wall-clock timestamp (the
filenames embed the timestamp, so the two runs write distinct files). -/
def genOracleOk2 : GenOracle :=
  { videoUrl := some "http://cdn/video2.mp4", downloadOk := true,
    timestamp := "2025-01-01T00-00-05-000Z",
    generatedAt := "2025-01-01T00:00:05.000Z" }

/-- Two concurrent `getOrCreateVariant` calls on the same (emotion,
description) fingerprint, over an initially empty cache. -/
def racingSys : SysState :=
  ⟨emptyCache,
   [mkTask "joy" "cowboy" genOracleOk, mkTask "joy" "cowboy" genOracleOk2],
   0⟩

/-- The manifest entry written by a successful `generateVariant` run. -/
def generatedEntry (md5hex8 : String → String) (o : GenOracle)
    (e d url : String) : ManifestEntry :=
  { emotion := e, customDescription := d, prompt := buildCustomPrompt e d,
    filename := generateCacheKey md5hex8 e d ++ "_" ++ o.timestamp ++ ".mp4",
    generatedAt := o.generatedAt, videoUrl := url }

/-! ## JavaScript string primitives

Characterwise models of the string operations the source leans on.  The
inputs handled by this subsystem are ASCII; the models implement the
ASCII behaviour of the corresponding JS operations.
-/

/-- The JS regex class `\s` (ASCII part: space, tab, LF, VT, FF, CR). -/
def isJsSpace (c : Char) : Bool :=
  c = ' ' || c = '\t' || c = '\n' || c = '\x0b' || c = '\x0c' || c = '\r'

/-- JS `String.prototype.includes` on char lists. -/
def containsSub : List Char → List Char → Bool
  | [], pat => pat.isEmpty
  | c :: tl, pat => pat.isPrefixOf (c :: tl) || containsSub tl pat

/-- JS `String.prototype.toLowerCase()` (ASCII), characterwise. -/
def jsToLower (s : String) : String :=
  String.mk (s.data.map Char.toLower)

/-- JS `String.prototype.split(sep)` for a non-empty plain separator:
leftmost, non-overlapping cuts.  `acc` holds the current segment
reversed; `skip > 0` means the scan is inside an already-cut separator
occurrence. -/
def splitOnListAux (sep : List Char) :
    List Char → List Char → Nat → List (List Char)
  | [], acc, _ => [acc.reverse]
  | _ :: tl, acc, skip + 1 => splitOnListAux sep tl acc skip
  | c :: tl, acc, 0 =>
    if sep.length > 0 && sep.isPrefixOf (c :: tl) then
      acc.reverse :: splitOnListAux sep tl [] (sep.length - 1)
    else
      splitOnListAux sep tl (c :: acc) 0

/-- JS `String.prototype.split(sep)` on char lists. -/
def splitOnList (sep s : List Char) : List (List Char) :=
  splitOnListAux sep s [] 0

/-- JS `String.prototype.trim()` on char lists. -/
def trimList (s : List Char) : List Char :=
  ((s.dropWhile isJsSpace).reverse.dropWhile isJsSpace).reverse

/-- JS `String.prototype.trim()`. -/
def jsTrim (s : String) : String := String.mk (trimList s.data)

/-- Case-insensitive prefix test against a lowercase pattern. -/
def ciPrefixOf (pat s : List Char) : Bool :=
  ((s.take pat.length).map Char.toLower) == pat

/-- JS `str.replace(new RegExp(pat, 'gi'), '')` for a plain lowercase
pattern: delete the leftmost, non-overlapping, case-insensitive
occurrences of `pat`.  `skip > 0` means the scan is inside an occurrence
already deleted: the character is dropped without a new match attempt
(matches are non-overlapping). -/
def removeAllCIAux (pat : List Char) : List Char → Nat → List Char
  | [], _ => []
  | _ :: tl, skip + 1 => removeAllCIAux pat tl skip
  | c :: tl, 0 =>
    if pat.length > 0 && ciPrefixOf pat (c :: tl) then
      removeAllCIAux pat tl (pat.length - 1)
    else
      c :: removeAllCIAux pat tl 0

/-- JS `str.replace(new RegExp(pat, 'gi'), '')`. -/
def removeAllCI (pat s : List Char) : List Char :=
  removeAllCIAux pat s 0

/-- `(text.match(new RegExp(pat, 'g')) || []).length` for a plain
pattern: the number of leftmost, non-overlapping occurrences; `skip`
plays the same role as in `removeAllCIAux`. -/
def countOccurrencesAux (pat : List Char) : List Char → Nat → Nat
  | [], _ => 0
  | _ :: tl, skip + 1 => countOccurrencesAux pat tl skip
  | c :: tl, 0 =>
    if pat.length > 0 && pat.isPrefixOf (c :: tl) then
      1 + countOccurrencesAux pat tl (pat.length - 1)
    else
      countOccurrencesAux pat tl 0

/-- `(text.match(new RegExp(pat, 'g')) || []).length`. -/
def countOccurrences (pat s : List Char) : Nat :=
  countOccurrencesAux pat s 0

/-- JS `str.replace(/\s+/g, ' ')`: collapse each maximal whitespace run
to a single space.  The flag records whether the scan is inside a run
whose space was already emitted. -/
def collapseWhitespaceAux : List Char → Bool → List Char
  | [], _ => []
  | c :: tl, inRun =>
    if isJsSpace c then
      if inRun then collapseWhitespaceAux tl true
      else ' ' :: collapseWhitespaceAux tl true
    else c :: collapseWhitespaceAux tl false

/-- JS `str.replace(/\s+/g, ' ')`. -/
def collapseWhitespace (s : List Char) : List Char :=
  collapseWhitespaceAux s false

/-- One alternative of `str.replace(/^(a|an|the)\s+/i, '')`: match the
article case-insensitively at the start, require at least one whitespace
character after it, and swallow the whole whitespace run. -/
def tryStripArticle (art s : List Char) : Option (List Char) :=
  if ciPrefixOf art s then
    match s.drop art.length with
    | c :: rest =>
        if isJsSpace c then some ((c :: rest).dropWhile isJsSpace) else none
    | [] => none
  else none

/-- JS `str.replace(/^(a|an|the)\s+/i, '')` — alternatives tried in the
regex's backtracking order `a`, `an`, `the`. -/
def stripLeadingArticle (s : List Char) : List Char :=
  match tryStripArticle ['a'] s with
  | some r => r
  | none =>
    match tryStripArticle ['a', 'n'] s with
    | some r => r
    | none =>
      match tryStripArticle ['t', 'h', 'e'] s with
      | some r => r
      | none => s

/-! ## `parseUserRequest`

Source: `custom-character-generator.js`, `parseUserRequest(userPrompt)`.
-/

/-- The fixed emotion-keyword table, in source order. -/
def emotionKeywords : List (String × List String) :=
  [("joy", ["happy", "joyful", "cheerful", "excited", "elated"]),
   ("anger", ["angry", "mad", "furious", "rage", "upset"]),
   ("fear", ["scared", "afraid", "fearful", "terrified", "nervous"]),
   ("disgust", ["disgusted", "gross", "ew", "yuck", "repulsed"]),
   ("anxiety", ["anxious", "worried", "stressed", "nervous", "tense"]),
   ("sadness", ["sad", "crying", "depressed", "melancholy", "blue"]),
   ("calm", ["calm", "peaceful", "serene", "relaxed", "zen"])]

/-- The double loop of `parseUserRequest`: the first row whose keyword
occurs in the lowercased prompt wins, with the row's first matching
keyword. -/
def findEmotionKeyword :
    List (String × List String) → List Char → Option (String × String)
  | [], _ => none
  | (emo, kws) :: tl, p =>
    match kws.find? (fun kw => containsSub p kw.data) with
    | some kw => some (emo, kw)
    | none => findEmotionKeyword tl p

/-- The `{emotion, customDescription}` object returned by
`parseUserRequest`. -/
structure ParsedRequest where
  emotion : String
  customDescription : String
deriving Repr, DecidableEq

/-- The emotion-detection loop of `parseUserRequest`: the detected
emotion together with the keyword-stripped, trimmed prompt
(`userPrompt.replace(new RegExp(keyword, 'gi'), '').trim()`); no match
leaves `neutral` and the raw prompt. -/
def detectedKeywordPair (userPrompt : String) : String × List Char :=
  match findEmotionKeyword emotionKeywords
      (userPrompt.data.map Char.toLower) with
  | some (emo, kw) => (emo, trimList (removeAllCI kw.data userPrompt.data))
  | none => ("neutral", userPrompt.data)

/-- The cleanup chain of `parseUserRequest`: strip a leading article,
collapse whitespace, trim. -/
def cleanedDescription (userPrompt : String) : List Char :=
  trimList (collapseWhitespace
    (stripLeadingArticle (detectedKeywordPair userPrompt).2))

/-- `parseUserRequest(userPrompt)`: detect an emotion keyword, delete its
occurrences from the prompt, strip a leading article, collapse
whitespace, trim; an empty remainder defaults to `"character"`
(`customDescription || 'character'`). -/
def parseUserRequest (userPrompt : String) : ParsedRequest :=
  { emotion := (detectedKeywordPair userPrompt).1,
    customDescription :=
      if (cleanedDescription userPrompt).isEmpty then "character"
      else String.mk (cleanedDescription userPrompt) }

/-! ## VideoEmotionMapper

Source: `video-emotion-mapper.js`.  The mapper's state is its emotion →
video-list index (`emotionVideoMap`), the scanned video list
(`availableVideos`, most recent first) and the `initialized` flag.
-/

/-- One scanned video (`{filename, path, emotion, timestamp}`). -/
structure VideoInfo where
  filename : String
  path : String
  emotion : String
  timestamp : Int
deriving Repr, DecidableEq

/-- The mapper's state. -/
structure MapperState where
  emotionVideoMap : List (String × List VideoInfo)
  availableVideos : List VideoInfo
  initialized : Bool
deriving Repr, DecidableEq

/-- The fixed `fallbackMap` table of `getFallbackVideos`. -/
def fallbackTable : List (String × List String) :=
  [("anger", ["disgust", "fear", "neutral"]),
   ("anxiety", ["fear", "sadness", "neutral"]),
   ("calm", ["neutral", "happiness", "joy"]),
   ("disgust", ["anger", "fear", "neutral"]),
   ("excitement", ["happiness", "joy", "surprise"]),
   ("fear", ["anxiety", "sadness", "neutral"]),
   ("happiness", ["joy", "excitement", "neutral"]),
   ("joy", ["happiness", "excitement", "surprise"]),
   ("love", ["happiness", "joy", "neutral"]),
   ("neutral", ["calm", "happiness"]),
   ("sadness", ["fear", "anxiety", "neutral"]),
   ("surprise", ["excitement", "happiness", "neutral"])]

/-- The `for (const fallback of fallbacks)` walk: the first fallback
emotion with a non-empty bucket wins. -/
def firstNonemptyBucket (m : List (String × List VideoInfo)) :
    List String → Option (List VideoInfo)
  | [] => none
  | f :: tl =>
    match m.lookup f with
    | some (v :: vs) => some (v :: vs)
    | _ => firstNonemptyBucket m tl

/-- `getFallbackVideos(emotion)`: walk the emotion's fallback chain
(`fallbackMap[emotion] || ['neutral']`); if the chain is exhausted,
best-effort `availableVideos.slice(0, 1)`. -/
def getFallbackVideos (st : MapperState) (emotion : String) :
    List VideoInfo :=
  let fallbacks := (fallbackTable.lookup emotion).getD ["neutral"]
  match firstNonemptyBucket st.emotionVideoMap fallbacks with
  | some vs => vs
  | none => st.availableVideos.take 1

/-- `getVideoForEmotion(emotion)` with the default `preferRecent = true`
(the only call mode the server uses; `preferRecent = false` draws a
random element and is outside this model):  `null` when uninitialized;
otherwise the head of the emotion's bucket, of the first non-empty
fallback bucket, or of the best-effort slice — `null` when everything is
empty. -/
def getVideoForEmotion (st : MapperState) (emotion : String) :
    Option VideoInfo :=
  if !st.initialized then none
  else
    let e := jsToLower emotion
    let videos := (st.emotionVideoMap.lookup e).getD []
    let videos := if videos.isEmpty then getFallbackVideos st e else videos
    videos.head?

/-! ## server.js: session state, events and socket handlers

One connection's slice of the server's global maps: its `sessions` entry,
its `activeCustomCharacters` entry, the shared `CustomCharacterGenerator`
cache and `VideoEmotionMapper` state, and the number of connections
currently identified as hologram displays (the broadcast targets).
`Date`-valued fields (turn timestamps, timing blocks) and the float
`confidence` are wall-clock/float data and are omitted from the
embedding.
-/

/-- One conversation turn (`{role, content}`). -/
structure Turn where
  role : String
  content : String
deriving Repr, DecidableEq

/-- One `sessions.get(socket.id)` record. -/
structure Session where
  conversationHistory : List Turn
  isProcessing : Bool
  clientType : String
deriving Repr, DecidableEq

/-- One `activeCustomCharacters.get(socket.id)` record (the `customVideo`
object `{url, emotion, description, cached}`). -/
structure ActiveCharacter where
  url : String
  emotion : String
  description : String
  cached : Bool
deriving Repr, DecidableEq

/-- The `video` field of an outgoing bundle: either the custom-character
object or the standard `{filename, url, emotion}` object. -/
inductive VideoData
  | custom (url emotion description : String) (cached : Bool)
  | standard (filename url emotion : String)
deriving Repr, DecidableEq

/-- A `conversation-complete` payload. -/
structure Bundle where
  transcription : String
  response : String
  emotion : String
  audio : Option String
  video : Option VideoData
  customCharacter : Option (String × Bool)
  error : Option String
deriving Repr, DecidableEq

/-- A `display-content` payload (broadcast to hologram displays). -/
structure DisplayBundle where
  audio : Option String
  video : Option VideoData
  text : String
  emotion : String
  customCharacter : Option (String × Bool)
deriving Repr, DecidableEq

/-- Events the server emits while handling one inbound message. -/
inductive SEvent
  | status (state : String)
  | transcriptionResult (text : String)
  | conversationComplete (bundle : Bundle)
  | displayContent (bundle : DisplayBundle)
  | errorEvent (message : String)
  | resetComplete
deriving Repr, DecidableEq

/-- The server-side state one connection's handlers read and write. -/
structure ServerState where
  session : Session
  activeCustomCharacter : Option ActiveCharacter
  cache : CacheState
  mapper : MapperState
  holograms : Nat
deriving Repr, DecidableEq

/-- Outcome of the `whisperService.transcribeAudio` await: a transcript
or a thrown error. -/
inductive TranscriptionOutcome
  | ok (text : String)
  | err (message : String)
deriving Repr, DecidableEq

/-- Answers of the per-turn collaborators: the Gemini reply (its internal
try/catch substitutes fallback utterances, so it never throws), the
generation oracle behind `getOrCreateVariant`, and the ElevenLabs audio
(`none` = `generateAudioREST` throws). -/
structure TurnOracle where
  response : String
  gen : GenOracle
  audio : Option String
deriving Repr, DecidableEq

/-- `detectEmotionFromText`'s fixed pattern table, in source
(insertion) order. -/
def emotionPatterns : List (String × List String) :=
  [("anger", ["angry", "mad", "furious", "rage", "pissed", "irritated",
    "annoyed", "frustrated", "upset", "hate", "disgusting", "terrible",
    "awful", "stupid", "damn", "shit", "fuck"]),
   ("sadness", ["sad", "crying", "depressed", "miserable", "heartbroken",
    "grief", "sorrow", "melancholy", "blue", "down", "disappointed",
    "sorry", "unfortunately", "tragic", "loss"]),
   ("happiness", ["happy", "joy", "joyful", "cheerful", "delighted",
    "pleased", "glad", "content", "satisfied", "great", "wonderful",
    "amazing", "fantastic", "awesome", "excellent", "perfect", "love",
    "smile", "laugh"]),
   ("fear", ["afraid", "scared", "terrified", "frightened", "nervous",
    "worried", "anxious", "panic", "dread", "horror", "concern",
    "stress"]),
   ("surprise", ["wow", "omg", "whoa", "incredible", "unbelievable",
    "shocking", "amazing", "astonishing", "unexpected", "sudden",
    "surprise"]),
   ("disgust", ["disgusting", "gross", "yuck", "eww", "revolting",
    "repulsive", "nasty", "sick", "vomit"]),
   ("excitement", ["excited", "thrilled", "enthusiastic", "pumped",
    "energetic", "hyped", "eager", "fired up", "ready", "let\x27s go"]),
   ("calm", ["calm", "peaceful", "relaxed", "serene", "tranquil",
    "quiet", "still", "zen", "meditation", "breathe"]),
   ("anxiety", ["anxious", "stressed", "nervous", "worried", "tense",
    "overwhelmed", "panic", "restless"]),
   ("joy", ["joy", "bliss", "elated", "euphoric", "ecstatic",
    "overjoyed", "celebration", "party", "fun"])]

/-- `detectEmotionFromText(userInput, aiResponse)`: per-emotion counts of
pattern occurrences in the combined lowercased text; the first emotion
(in table order) with the strictly highest positive score wins, else
`neutral`. -/
def detectEmotionFromText (userInput aiResponse : String) : String :=
  let combined := (userInput ++ " " ++ aiResponse).data.map Char.toLower
  let scores := emotionPatterns.map (fun ep =>
    (ep.1, ep.2.foldl (fun acc p => acc + countOccurrences p.data combined) 0))
  let best : String × Nat := scores.foldl
    (fun best cur => if cur.2 > best.2 then cur else best) ("neutral", 0)
  if best.2 > 0 then best.1 else "neutral"

/-- `detectCustomCharacterRequest`'s fixed trigger list. -/
def customTriggers : List String :=
  ["be a", "become a", "turn into", "transform into",
   "can you be", "could you be", "please be",
   "show me a", "let me see a", "i want a",
   "be like a", "act like a"]

/-- The stop-word list used when extracting the character words. -/
def stopWordsList : List String :=
  ["and", "tell", "show", "me", "the", "a", "an", "that", "can", "will",
   "would", "should", "please", "now", "today", "tomorrow", "about",
   "what", "how", "why", "when", "where"]

/-- The punctuation class `[?!.,;:]` cleaned from the description. -/
def punctChars : List Char := ['?', '!', '.', ',', ';', ':']

/-- The `for (let i = 0; i < Math.min(4, words.length); i++)` loop
collecting up to two meaningful character words, with its early-exit
conditions.  The fuel counts the remaining iterations: the loop body
runs at most four times (`i = 0..3`), so the initial fuel of 4 is
exact. -/
def pickCharacterWordsAux (words : List String) :
    Nat → Nat → List String → List String
  | 0, _, acc => acc
  | fuel + 1, i, acc =>
    if i < min 4 words.length then
      let word := jsToLower (words.getD i "")
      if !stopWordsList.contains word && word.length > 1 then
        let acc' := acc ++ [word]
        if acc'.length ≥ 2 ∨
            (1 ≤ acc'.length ∧ i < words.length - 1 ∧
              stopWordsList.contains (words.getD (i + 1) "") = true) then
          acc'
        else pickCharacterWordsAux words fuel (i + 1) acc'
      else pickCharacterWordsAux words fuel (i + 1) acc
    else acc

/-- The character-word extraction loop, started at `i = 0`. -/
def pickCharacterWords (words : List String) : List String :=
  pickCharacterWordsAux words 4 0 []

/-- `detectCustomCharacterRequest(userInput)`: `null` unless a trigger
phrase occurs; otherwise the segment after the first occurrence of the
first matching trigger, trimmed, punctuation-cleaned, reduced to its
first meaningful words (fallback: first word or `"character"`). -/
def detectCustomCharacterRequest (userInput : String) : Option String :=
  let text := jsToLower userInput
  match customTriggers.find? (fun tr => containsSub text.data tr.data) with
  | none => none
  | some tr =>
    let parts := splitOnList tr.data text.data
    let afterFirst := parts.getD 1 []
    let d₁ := trimList afterFirst
    let d₂ := trimList (d₁.filter (fun c => !punctChars.contains c))
    let words := (splitOnList [' '] d₂).map String.mk
    let picked := pickCharacterWords words
    some (if picked.isEmpty then
            (if (words.getD 0 "").isEmpty then "character"
             else words.getD 0 "")
          else String.intercalate " " picked)

/-- The emotion/asset resolution stage's outcome: updated cache and
active-character entry, the status events it emitted, and the
`customVideo` / `video` locals of the handler. -/
structure ResolveOut where
  cache : CacheState
  activeCustomCharacter : Option ActiveCharacter
  events : List SEvent
  customVideo : Option ActiveCharacter
  video : Option VideoInfo
deriving Repr, DecidableEq

/-- The emotion/asset stage of the `audio-for-transcription` handler
(`server.js` lines 280–344): new custom request, else continue an active
custom character (no reset phrase handling on this path, and no
`generating-character` status on the continue branch), else the standard
mapper lookup; custom failure falls back to the standard path. -/
def resolveVideoAudio (md5hex8 : String → String) (genO : GenOracle)
    (cache : CacheState) (mapper : MapperState)
    (activeChar : Option ActiveCharacter) (req : Option String)
    (emo : String) : ResolveOut :=
  match req with
  | some desc =>
    let r := getOrCreateVariant md5hex8 genO cache emo desc
    if r.2.success then
      let cv : ActiveCharacter := ⟨(r.2.path).getD "", emo, desc, r.2.cached⟩
      ⟨r.1, some cv, [.status "generating-character"], some cv, none⟩
    else
      ⟨r.1, activeChar, [.status "generating-character"], none,
       getVideoForEmotion mapper emo⟩
  | none =>
    match activeChar with
    | some ac =>
      if ac.description = "" then
        ⟨cache, activeChar, [], none, getVideoForEmotion mapper emo⟩
      else
        let r := getOrCreateVariant md5hex8 genO cache emo ac.description
        if r.2.success then
          let cv : ActiveCharacter :=
            ⟨(r.2.path).getD "", emo, ac.description, r.2.cached⟩
          ⟨r.1, some cv, [], some cv, none⟩
        else
          ⟨r.1, activeChar, [], none, getVideoForEmotion mapper emo⟩
    | none => ⟨cache, activeChar, [], none, getVideoForEmotion mapper emo⟩

/-- The emotion/asset stage of the `text-input` handler (`server.js`
lines 466–529): as the audio path, but the continue branch requires that
no reset phrase was detected and emits a `generating-character`
status. -/
def resolveVideoText (md5hex8 : String → String) (genO : GenOracle)
    (cache : CacheState) (mapper : MapperState)
    (activeChar : Option ActiveCharacter) (req : Option String)
    (emo : String) (isReset : Bool) : ResolveOut :=
  match req with
  | some desc =>
    let r := getOrCreateVariant md5hex8 genO cache emo desc
    if r.2.success then
      let cv : ActiveCharacter := ⟨(r.2.path).getD "", emo, desc, r.2.cached⟩
      ⟨r.1, some cv, [.status "generating-character"], some cv, none⟩
    else
      ⟨r.1, activeChar, [.status "generating-character"], none,
       getVideoForEmotion mapper emo⟩
  | none =>
    match activeChar with
    | some ac =>
      if ac.description = "" ∨ isReset = true then
        ⟨cache, activeChar, [], none, getVideoForEmotion mapper emo⟩
      else
        let r := getOrCreateVariant md5hex8 genO cache emo ac.description
        if r.2.success then
          let cv : ActiveCharacter :=
            ⟨(r.2.path).getD "", emo, ac.description, r.2.cached⟩
          ⟨r.1, some cv, [.status "generating-character"], some cv, none⟩
        else
          ⟨r.1, activeChar, [.status "generating-character"], none,
           getVideoForEmotion mapper emo⟩
    | none => ⟨cache, activeChar, [], none, getVideoForEmotion mapper emo⟩

/-- `const videoData = customVideo ? customVideo : (video ? {...} : null)`. -/
def toVideoData (customVideo : Option ActiveCharacter)
    (video : Option VideoInfo) : Option VideoData :=
  match customVideo with
  | some cv => some (.custom cv.url cv.emotion cv.description cv.cached)
  | none =>
    match video with
    | some v =>
        some (.standard v.filename ("/generated_files/" ++ v.filename)
          v.emotion)
    | none => none

/-- The `customCharacter` field of the outgoing bundles. -/
def ccField (customVideo : Option ActiveCharacter) :
    Option (String × Bool) :=
  customVideo.map (fun cv => (cv.description, cv.cached))

/-- `customVideo ? customVideo.emotion : detectedEmotion`. -/
def bundleEmotion (customVideo : Option ActiveCharacter) (emo : String) :
    String :=
  match customVideo with
  | some cv => cv.emotion
  | none => emo

/-- The `video` field of the text path's audio-failure bundle: the
standard `video` local only (the `customVideo` local is not consulted
there). -/
def standardVideoField (video : Option VideoInfo) : Option VideoData :=
  video.map (fun v =>
    .standard v.filename ("/generated_files/" ++ v.filename) v.emotion)

/-- The `audio-for-transcription` handler (`server.js` lines 219–424):
busy sessions are ignored; a throwing transcription clears busy and
reports an error; an empty/whitespace transcript falls off the end of the
handler (leaving `isProcessing` true and emitting no further event); a
non-empty transcript runs the full pipeline, and an audio failure on this
path emits only an error plus idle status (no completion bundle). -/
def audioForTranscription (md5hex8 : String → String) (st : ServerState)
    (t : TranscriptionOutcome) (o : TurnOracle) :
    ServerState × List SEvent :=
  if st.session.isProcessing then (st, [])
  else
    match t with
    | .err _ =>
      ({ st with session := { st.session with isProcessing := false } },
       [.status "transcribing", .errorEvent "Failed to process audio",
        .status "idle"])
    | .ok text =>
      if jsTrim text = "" then
        ({ st with session := { st.session with isProcessing := true } },
         [.status "transcribing", .transcriptionResult text])
      else
        let hist := st.session.conversationHistory ++
          [⟨"user", text⟩, ⟨"assistant", o.response⟩]
        let req := detectCustomCharacterRequest text
        let emo := detectEmotionFromText text o.response
        let ro := resolveVideoAudio md5hex8 o.gen st.cache st.mapper
          st.activeCustomCharacter req emo
        let pre := [SEvent.status "transcribing",
          .transcriptionResult text, .status "thinking"] ++ ro.events ++
          [.status "generating-audio"]
        let st' : ServerState :=
          { st with
            session := { st.session with
              conversationHistory := hist, isProcessing := false },
            activeCustomCharacter := ro.activeCustomCharacter,
            cache := ro.cache }
        match o.audio with
        | some buf =>
          let vd := toVideoData ro.customVideo ro.video
          let be := bundleEmotion ro.customVideo emo
          let cc := ccField ro.customVideo
          (st',
           pre ++
             [.conversationComplete
               ⟨text, o.response, be, some buf, vd, cc, none⟩] ++
             List.replicate st.holograms
               (.displayContent ⟨some buf, vd, o.response, be, cc⟩) ++
             [.status "idle"])
        | none =>
          (st',
           pre ++ [.errorEvent "Failed to generate audio", .status "idle"])

/-- The guard of the `text-input` handler:
`!session || session.isProcessing || !text || !text.trim()`. -/
def textInputGuard (st : ServerState) (text : String) : Bool :=
  st.session.isProcessing || text = "" || jsTrim text = ""

/-- `text-input` up to the `generateResponse` await (the first suspension
point): set busy, emit the thinking status, append the user turn. -/
def textInputPhase1 (st : ServerState) (text : String) :
    ServerState × List SEvent :=
  ({ st with
     session := { st.session with
       isProcessing := true,
       conversationHistory :=
         st.session.conversationHistory ++ [⟨"user", text⟩] } },
   [.status "thinking"])

/-- The fixed reset-phrase list of the `text-input` handler. -/
def resetCommands : List String :=
  ["go back to normal", "be normal", "reset character",
   "default character", "stop being", "go back to default"]

/-- `resetCommands.some(cmd => text.toLowerCase().includes(cmd))`. -/
def isResetCommand (text : String) : Bool :=
  resetCommands.any (fun cmd => containsSub (jsToLower text).data cmd.data)

/-- The resolution stage of `text-input`, applied to the post-reset
active character (`activeCustomCharacters.delete` runs before the
lookup when a reset phrase is present). -/
def phase2Resolve (md5hex8 : String → String) (st : ServerState)
    (text response : String) (genO : GenOracle) : ResolveOut :=
  resolveVideoText md5hex8 genO st.cache st.mapper
    (if isResetCommand text then none else st.activeCustomCharacter)
    (detectCustomCharacterRequest text)
    (detectEmotionFromText text response) (isResetCommand text)

/-- `text-input` from the `generateResponse` await onwards: append the
assistant turn, clear the active character on a reset phrase, resolve the
video, synthesize audio; on audio failure the turn still completes with a
null audio field and an error annotation (but only the standard `video`
local in the bundle); finally emit the idle status and clear busy. -/
def textInputPhase2 (md5hex8 : String → String) (st : ServerState)
    (text response : String) (genO : GenOracle)
    (audioO : Option String) : ServerState × List SEvent :=
  let hist := st.session.conversationHistory ++ [⟨"assistant", response⟩]
  let emo := detectEmotionFromText text response
  let ro := phase2Resolve md5hex8 st text response genO
  let pre := ro.events ++ [SEvent.status "generating-audio"]
  let st' : ServerState :=
    { st with
      session := { st.session with
        conversationHistory := hist, isProcessing := false },
      activeCustomCharacter := ro.activeCustomCharacter,
      cache := ro.cache }
  match audioO with
  | some buf =>
    let vd := toVideoData ro.customVideo ro.video
    let be := bundleEmotion ro.customVideo emo
    let cc := ccField ro.customVideo
    (st',
     pre ++
       [.conversationComplete ⟨text, response, be, some buf, vd, cc, none⟩]
       ++ List.replicate st.holograms
         (.displayContent ⟨some buf, vd, response, be, cc⟩) ++
       [.status "idle"])
  | none =>
    let svd := standardVideoField ro.video
    (st',
     pre ++
       [.conversationComplete
         ⟨text, response, emo, none, svd, none,
          some "Failed to generate audio"⟩] ++
       List.replicate st.holograms
         (.displayContent ⟨none, svd, response, emo, none⟩) ++
       [.status "idle"])

/-- The whole `text-input` handler (`server.js` lines 427–629). -/
def textInput (md5hex8 : String → String) (st : ServerState)
    (text : String) (o : TurnOracle) : ServerState × List SEvent :=
  if textInputGuard st text then (st, [])
  else
    let p1 := textInputPhase1 st text
    let p2 := textInputPhase2 md5hex8 p1.1 text o.response o.gen o.audio
    (p2.1, p1.2 ++ p2.2)

/-- The `interrupt` handler (`server.js` lines 632–638): clear busy and
emit the idle status — nothing else. -/
def interruptHandler (st : ServerState) : ServerState × List SEvent :=
  ({ st with session := { st.session with isProcessing := false } },
   [.status "idle"])

/-- The `reset` handler (`server.js` lines 641–649): clear history and
busy, emit `reset-complete` — `activeCustomCharacters` is not touched. -/
def resetHandler (st : ServerState) : ServerState × List SEvent :=
  ({ st with
     session := { st.session with
       conversationHistory := [], isProcessing := false } },
   [.resetComplete])

/-- An initialized mapper with no scanned videos. -/
def emptyMapper : MapperState := ⟨[], [], true⟩

/-- An idle connection with one hologram display attached. -/
def idleServer : ServerState :=
  ⟨⟨[], false, "mobile"⟩, none, emptyCache, emptyMapper, 1⟩

/-- A connection whose pipeline is mid-run (`isProcessing = true`). -/
def busyServer : ServerState :=
  ⟨⟨[⟨"user", "prior turn"⟩], true, "mobile"⟩, none, emptyCache,
   emptyMapper, 1⟩

/-- A busy connection with history and an active custom character. -/
def busyCustomServer : ServerState :=
  ⟨⟨[⟨"user", "be a pirate"⟩, ⟨"assistant", "arr"⟩], true, "mobile"⟩,
   some ⟨"/videos/custom_variants/x.mp4", "joy", "pirate", true⟩,
   emptyCache, emptyMapper, 1⟩

/-- A scanned disgust video used by the mapper witness. -/
def disgustVideo : VideoInfo :=
  ⟨"disgust_20240101_000000.mp4",
   "/generated_files/disgust_20240101_000000.mp4", "disgust", 0⟩

/-- An initialized mapper indexing one disgust video. -/
def mapperW : MapperState :=
  ⟨[("disgust", [disgustVideo])], [disgustVideo], true⟩

/-- Per-turn oracle whose voice synthesis succeeds. -/
def turnOracleOk : TurnOracle := ⟨"ok", genOracleOk, some "QUJD"⟩

/-- Per-turn oracle whose voice synthesis throws. -/
def turnOracleNoAudio : TurnOracle := ⟨"ok", genOracleOk, none⟩

/-- `true` on `conversation-complete` events. -/
def isConvComplete : SEvent → Bool
  | .conversationComplete _ => true
  | _ => false

/-- `true` when the optional video field is absent or a standard (non
custom) asset. -/
def notCustomVideo : Option VideoData → Bool
  | some (.custom ..) => false
  | _ => true

theorem checkCache_hit_inv (md5hex8 : String → String) (st st' : CacheState)
    (e d p : String) (m : ManifestEntry)
    (h : checkCache md5hex8 st e d = (st', .hit p m)) :
    st' = st ∧
    st.manifest.lookup (generateCacheKey md5hex8 e d) = some m ∧
    st.files.contains m.filename = true ∧
    p = goodPath m := by
  simp only [checkCache] at h
  split at h
  · rename_i entry hl
    split at h
    · rename_i hf
      injection h with h₁ h₂
      injection h₂ with hp hm
      subst hm
      subst hp
      exact ⟨h₁.symm, hl, hf, rfl⟩
    · simp at h
  · simp at h

theorem checkCache_hit_of_lookup (md5hex8 : String → String) (st : CacheState)
    (e d : String) (entry : ManifestEntry)
    (h1 : st.manifest.lookup (generateCacheKey md5hex8 e d) = some entry)
    (h2 : st.files.contains entry.filename = true) :
    checkCache md5hex8 st e d = (st, .hit (goodPath entry) entry) := by
  simp only [checkCache, h1]
  rw [if_pos h2]
  rfl

theorem generateVariant_success_inv (md5hex8 : String → String) (o : GenOracle)
    (st st' : CacheState) (e d p : String) (m : ManifestEntry)
    (h : generateVariant md5hex8 o st e d = (st', .success p m)) :
    m.filename = generateCacheKey md5hex8 e d ++ "_" ++ o.timestamp ++ ".mp4" ∧
    st' = ⟨(generateCacheKey md5hex8 e d, m) ::
             eraseKey st.manifest (generateCacheKey md5hex8 e d),
           m.filename :: st.files⟩ ∧
    p = goodPath m := by
  simp only [generateVariant] at h
  split at h
  · simp at h
  · rename_i url hu
    split at h
    · rename_i hd
      injection h with h₁ h₂
      injection h₂ with hp hm
      subst hm
      subst hp
      exact ⟨rfl, h₁.symm, rfl⟩
    · simp at h

theorem getOrCreateVariant_eq_of_hit (md5hex8 : String → String)
    (o : GenOracle) (st st' : CacheState) (e d p : String) (m : ManifestEntry)
    (h : checkCache md5hex8 st e d = (st', .hit p m)) :
    getOrCreateVariant md5hex8 o st e d =
      (st', ⟨true, true, some p, some m, none⟩) := by
  simp only [getOrCreateVariant, h]

theorem getOrCreateVariant_eq_of_miss_success (md5hex8 : String → String)
    (o : GenOracle) (st st' st'' : CacheState) (e d p : String)
    (m : ManifestEntry)
    (h1 : checkCache md5hex8 st e d = (st', .miss))
    (h2 : generateVariant md5hex8 o st' e d = (st'', .success p m)) :
    getOrCreateVariant md5hex8 o st e d =
      (st'', ⟨true, false, some p, some m, none⟩) := by
  simp only [getOrCreateVariant, h1, h2]

theorem getOrCreateVariant_eq_of_miss_failure (md5hex8 : String → String)
    (o : GenOracle) (st st' st'' : CacheState) (e d err : String)
    (h1 : checkCache md5hex8 st e d = (st', .miss))
    (h2 : generateVariant md5hex8 o st' e d = (st'', .failure err)) :
    getOrCreateVariant md5hex8 o st e d =
      (st'', ⟨false, false, none, none, some err⟩) := by
  simp only [getOrCreateVariant, h1, h2]

/-- After a successful `getOrCreateVariant` call, the resulting cache state
holds a manifest entry for the fingerprint whose backing file is present,
and the returned path/metadata are exactly that entry's. -/
theorem getOrCreateVariant_success_state (md5hex8 : String → String)
    (o : GenOracle) (st : CacheState) (e d : String)
    (h : (getOrCreateVariant md5hex8 o st e d).2.success = true) :
    ∃ entry,
      (getOrCreateVariant md5hex8 o st e d).1.manifest.lookup
          (generateCacheKey md5hex8 e d) = some entry ∧
      (getOrCreateVariant md5hex8 o st e d).1.files.contains entry.filename
          = true ∧
      (getOrCreateVariant md5hex8 o st e d).2.path = some (goodPath entry) ∧
      (getOrCreateVariant md5hex8 o st e d).2.metadata = some entry := by
  rcases hck : checkCache md5hex8 st e d with ⟨stc, cr⟩
  rcases cr with ⟨p, m⟩ | ⟨⟩
  · obtain ⟨hst, hl, hf, hp⟩ := checkCache_hit_inv md5hex8 st stc e d p m hck
    subst hst
    rw [getOrCreateVariant_eq_of_hit md5hex8 o _ _ e d p m hck]
    exact ⟨m, hl, hf, by rw [hp], rfl⟩
  · rcases hgen : generateVariant md5hex8 o stc e d with ⟨stg, gr⟩
    rcases gr with ⟨p, m⟩ | ⟨err⟩
    · obtain ⟨hfn, hst, hp⟩ :=
        generateVariant_success_inv md5hex8 o stc stg e d p m hgen
      rw [getOrCreateVariant_eq_of_miss_success md5hex8 o st stc stg e d p m
        hck hgen]
      subst hst
      refine ⟨m, ?_, ?_, by rw [hp], rfl⟩
      · simp [List.lookup]
      · simp [List.contains_cons]
    · rw [getOrCreateVariant_eq_of_miss_failure md5hex8 o st stc stg e d err
        hck hgen] at h
      simp at h

/-- C1: after a first successful `getOrCreateVariant(emotion, description)`
call, a second call with identical inputs reports `cached = true` and
returns the same path and the same manifest entry (hence the same
filename) as the first call. -/
theorem getOrCreateVariant_second_call_cached (md5hex8 : String → String)
    (o₁ o₂ : GenOracle) (st : CacheState) (e d : String)
    (h : (getOrCreateVariant md5hex8 o₁ st e d).2.success = true) :
    (getOrCreateVariant md5hex8 o₂ (getOrCreateVariant md5hex8 o₁ st e d).1
        e d).2.cached = true ∧
    (getOrCreateVariant md5hex8 o₂ (getOrCreateVariant md5hex8 o₁ st e d).1
        e d).2.success = true ∧
    (getOrCreateVariant md5hex8 o₂ (getOrCreateVariant md5hex8 o₁ st e d).1
        e d).2.path = (getOrCreateVariant md5hex8 o₁ st e d).2.path ∧
    (getOrCreateVariant md5hex8 o₂ (getOrCreateVariant md5hex8 o₁ st e d).1
        e d).2.metadata = (getOrCreateVariant md5hex8 o₁ st e d).2.metadata := by
  obtain ⟨entry, hl, hf, hp, hm⟩ :=
    getOrCreateVariant_success_state md5hex8 o₁ st e d h
  have h2 := checkCache_hit_of_lookup md5hex8
    (getOrCreateVariant md5hex8 o₁ st e d).1 e d entry hl hf
  rw [getOrCreateVariant_eq_of_hit md5hex8 o₂
    (getOrCreateVariant md5hex8 o₁ st e d).1
    (getOrCreateVariant md5hex8 o₁ st e d).1 e d (goodPath entry) entry h2]
  exact ⟨rfl, rfl, hp.symm, hm.symm⟩

/-- Concrete instance of C1: generating "joy cowboy" into an empty cache
succeeds, and the repeated call is answered from the cache with the same
path. -/
theorem getOrCreateVariant_second_call_cached_witness :
    (getOrCreateVariant md5w genOracleOk emptyCache "joy" "cowboy").2.success
        = true ∧
    (getOrCreateVariant md5w genOracleOk
        (getOrCreateVariant md5w genOracleOk emptyCache "joy" "cowboy").1
        "joy" "cowboy").2.cached = true ∧
    (getOrCreateVariant md5w genOracleOk
        (getOrCreateVariant md5w genOracleOk emptyCache "joy" "cowboy").1
        "joy" "cowboy").2.path =
      (getOrCreateVariant md5w genOracleOk emptyCache "joy" "cowboy").2.path := by
  have hs : (getOrCreateVariant md5w genOracleOk emptyCache "joy"
      "cowboy").2.success = true := by decide
  have := getOrCreateVariant_second_call_cached md5w genOracleOk genOracleOk
    emptyCache "joy" "cowboy" hs
  exact ⟨hs, this.1, this.2.2.1⟩

theorem checkCache_miss_of_lookup_none (md5hex8 : String → String)
    (st : CacheState) (e d : String)
    (h : st.manifest.lookup (generateCacheKey md5hex8 e d) = none) :
    checkCache md5hex8 st e d = (st, .miss) := by
  simp only [checkCache, h]

theorem generateVariant_eq_of_ok (md5hex8 : String → String) (o : GenOracle)
    (st : CacheState) (e d url : String)
    (hu : o.videoUrl = some url) (hd : o.downloadOk = true) :
    generateVariant md5hex8 o st e d =
      (⟨(generateCacheKey md5hex8 e d, generatedEntry md5hex8 o e d url) ::
          eraseKey st.manifest (generateCacheKey md5hex8 e d),
        (generatedEntry md5hex8 o e d url).filename :: st.files⟩,
       .success (goodPath (generatedEntry md5hex8 o e d url))
         (generatedEntry md5hex8 o e d url)) := by
  simp [generateVariant, hu, hd, generatedEntry, goodPath]

/-- C2 counterexample: two concurrent `getOrCreateVariant` calls on the
same (emotion, description) fingerprint, interleaved so that both run
`checkCache` (both miss on the empty cache) before either reaches the
manifest update, perform two generation invocations and write two
artifact files for the one fingerprint — the race the source leaves open
between `checkCache` and `generateVariant`. -/
theorem race_two_generations_counterexample :
    (runSchedule md5w [0, 1, 0, 1] racingSys).genCount = 2 ∧
    (runSchedule md5w [0, 1, 0, 1] racingSys).cache.files.length = 2 := by
  constructor <;> rfl

/-- C2 (amended): the at-most-one-generation guarantee holds only when
same-fingerprint calls are serialized.  If the first call runs to
completion (successfully) before the second starts, exactly one
generation invocation occurs and the second call is answered from the
cache with `cached = true`. -/
theorem sequential_calls_single_generation (md5hex8 : String → String)
    (st : CacheState) (e d url : String) (o₁ o₂ : GenOracle)
    (hl : st.manifest.lookup (generateCacheKey md5hex8 e d) = none)
    (hu : o₁.videoUrl = some url) (hd : o₁.downloadOk = true) :
    (runSchedule md5hex8 [0, 0, 1, 1]
        ⟨st, [mkTask e d o₁, mkTask e d o₂], 0⟩).genCount = 1 ∧
    ∃ t, (runSchedule md5hex8 [0, 0, 1, 1]
        ⟨st, [mkTask e d o₁, mkTask e d o₂], 0⟩).tasks[1]? = some t ∧
      ∃ p m, t.result = some ⟨true, true, some p, some m, none⟩ := by
  have hc1 := checkCache_miss_of_lookup_none md5hex8 st e d hl
  have hg := generateVariant_eq_of_ok md5hex8 o₁ st e d url hu hd
  have s1 : stepTask md5hex8 ⟨st, [mkTask e d o₁, mkTask e d o₂], 0⟩ 0 =
      ⟨st, [⟨.generating, e, d, o₁, none⟩, mkTask e d o₂], 0⟩ := by
    simp [stepTask, mkTask, hc1]
  have s2 : stepTask md5hex8
      ⟨st, [⟨.generating, e, d, o₁, none⟩, mkTask e d o₂], 0⟩ 0 =
      ⟨⟨(generateCacheKey md5hex8 e d, generatedEntry md5hex8 o₁ e d url) ::
          eraseKey st.manifest (generateCacheKey md5hex8 e d),
        (generatedEntry md5hex8 o₁ e d url).filename :: st.files⟩,
       [⟨.done, e, d, o₁, some ⟨true, false,
          some (goodPath (generatedEntry md5hex8 o₁ e d url)),
          some (generatedEntry md5hex8 o₁ e d url), none⟩⟩,
        mkTask e d o₂], 1⟩ := by
    simp [stepTask, hg]
  have hlk : ((generateCacheKey md5hex8 e d,
        generatedEntry md5hex8 o₁ e d url) ::
        eraseKey st.manifest (generateCacheKey md5hex8 e d)).lookup
          (generateCacheKey md5hex8 e d) =
        some (generatedEntry md5hex8 o₁ e d url) := by
    simp [List.lookup]
  have hcont : ((generatedEntry md5hex8 o₁ e d url).filename ::
        st.files).contains (generatedEntry md5hex8 o₁ e d url).filename
        = true := by
    simp [List.contains_cons]
  have hc2 := checkCache_hit_of_lookup md5hex8
    ⟨(generateCacheKey md5hex8 e d, generatedEntry md5hex8 o₁ e d url) ::
        eraseKey st.manifest (generateCacheKey md5hex8 e d),
      (generatedEntry md5hex8 o₁ e d url).filename :: st.files⟩
    e d (generatedEntry md5hex8 o₁ e d url) hlk hcont
  have s3 : stepTask md5hex8
      ⟨⟨(generateCacheKey md5hex8 e d, generatedEntry md5hex8 o₁ e d url) ::
          eraseKey st.manifest (generateCacheKey md5hex8 e d),
        (generatedEntry md5hex8 o₁ e d url).filename :: st.files⟩,
       [⟨.done, e, d, o₁, some ⟨true, false,
          some (goodPath (generatedEntry md5hex8 o₁ e d url)),
          some (generatedEntry md5hex8 o₁ e d url), none⟩⟩,
        mkTask e d o₂], 1⟩ 1 =
      ⟨⟨(generateCacheKey md5hex8 e d, generatedEntry md5hex8 o₁ e d url) ::
          eraseKey st.manifest (generateCacheKey md5hex8 e d),
        (generatedEntry md5hex8 o₁ e d url).filename :: st.files⟩,
       [⟨.done, e, d, o₁, some ⟨true, false,
          some (goodPath (generatedEntry md5hex8 o₁ e d url)),
          some (generatedEntry md5hex8 o₁ e d url), none⟩⟩,
        ⟨.done, e, d, o₂, some ⟨true, true,
          some (goodPath (generatedEntry md5hex8 o₁ e d url)),
          some (generatedEntry md5hex8 o₁ e d url), none⟩⟩], 1⟩ := by
    simp [stepTask, mkTask, hc2]
  have s4 : stepTask md5hex8
      ⟨⟨(generateCacheKey md5hex8 e d, generatedEntry md5hex8 o₁ e d url) ::
          eraseKey st.manifest (generateCacheKey md5hex8 e d),
        (generatedEntry md5hex8 o₁ e d url).filename :: st.files⟩,
       [⟨.done, e, d, o₁, some ⟨true, false,
          some (goodPath (generatedEntry md5hex8 o₁ e d url)),
          some (generatedEntry md5hex8 o₁ e d url), none⟩⟩,
        ⟨.done, e, d, o₂, some ⟨true, true,
          some (goodPath (generatedEntry md5hex8 o₁ e d url)),
          some (generatedEntry md5hex8 o₁ e d url), none⟩⟩], 1⟩ 1 =
      ⟨⟨(generateCacheKey md5hex8 e d, generatedEntry md5hex8 o₁ e d url) ::
          eraseKey st.manifest (generateCacheKey md5hex8 e d),
        (generatedEntry md5hex8 o₁ e d url).filename :: st.files⟩,
       [⟨.done, e, d, o₁, some ⟨true, false,
          some (goodPath (generatedEntry md5hex8 o₁ e d url)),
          some (generatedEntry md5hex8 o₁ e d url), none⟩⟩,
        ⟨.done, e, d, o₂, some ⟨true, true,
          some (goodPath (generatedEntry md5hex8 o₁ e d url)),
          some (generatedEntry md5hex8 o₁ e d url), none⟩⟩], 1⟩ := by
    simp [stepTask]
  have hrun : runSchedule md5hex8 [0, 0, 1, 1]
      ⟨st, [mkTask e d o₁, mkTask e d o₂], 0⟩ =
      ⟨⟨(generateCacheKey md5hex8 e d, generatedEntry md5hex8 o₁ e d url) ::
          eraseKey st.manifest (generateCacheKey md5hex8 e d),
        (generatedEntry md5hex8 o₁ e d url).filename :: st.files⟩,
       [⟨.done, e, d, o₁, some ⟨true, false,
          some (goodPath (generatedEntry md5hex8 o₁ e d url)),
          some (generatedEntry md5hex8 o₁ e d url), none⟩⟩,
        ⟨.done, e, d, o₂, some ⟨true, true,
          some (goodPath (generatedEntry md5hex8 o₁ e d url)),
          some (generatedEntry md5hex8 o₁ e d url), none⟩⟩], 1⟩ := by
    show stepTask md5hex8 (stepTask md5hex8 (stepTask md5hex8
      (stepTask md5hex8 ⟨st, [mkTask e d o₁, mkTask e d o₂], 0⟩ 0) 0) 1) 1 = _
    rw [s1, s2, s3, s4]
  rw [hrun]
  exact ⟨rfl, _, rfl, goodPath (generatedEntry md5hex8 o₁ e d url),
    generatedEntry md5hex8 o₁ e d url, rfl⟩

/-- Concrete instance of the amended C2: serialized calls on "joy cowboy"
over the empty cache perform exactly one generation, and the second call
is a cache hit. -/
theorem sequential_calls_single_generation_witness :
    emptyCache.manifest.lookup (generateCacheKey md5w "joy" "cowboy")
        = none ∧
    genOracleOk.videoUrl = some "http://cdn/video.mp4" ∧
    genOracleOk.downloadOk = true ∧
    ((runSchedule md5w [0, 0, 1, 1]
        ⟨emptyCache, [mkTask "joy" "cowboy" genOracleOk,
          mkTask "joy" "cowboy" genOracleOk2], 0⟩).genCount = 1 ∧
      ∃ t, (runSchedule md5w [0, 0, 1, 1]
          ⟨emptyCache, [mkTask "joy" "cowboy" genOracleOk,
            mkTask "joy" "cowboy" genOracleOk2], 0⟩).tasks[1]? = some t ∧
        ∃ p m, t.result = some ⟨true, true, some p, some m, none⟩) :=
  ⟨rfl, rfl, rfl,
   sequential_calls_single_generation md5w emptyCache "joy" "cowboy"
     "http://cdn/video.mp4" genOracleOk genOracleOk2 rfl rfl rfl⟩

/-- C4, code evidence: on an empty transcript the handler emits no
`conversation-complete` (as the claim states) — but, contrary to the
claim, the session's busy flag is left `true` and no idle status is
emitted: the handler falls off the end of the non-empty-text `if` without
clearing `isProcessing`, leaving the session permanently busy. -/
theorem emptyTranscript_leaves_session_busy :
    (audioForTranscription md5w idleServer (.ok "") turnOracleOk).2 =
      [SEvent.status "transcribing", SEvent.transcriptionResult ""] ∧
    ((audioForTranscription md5w idleServer (.ok "")
        turnOracleOk).2.any isConvComplete) = false ∧
    (audioForTranscription md5w idleServer (.ok "")
        turnOracleOk).1.session.isProcessing = true := by
  refine ⟨rfl, rfl, rfl⟩

/-- C5: while a session's busy flag is set, a `text-input` submission is
a no-op — the state (in particular the conversation history) is
unchanged and no event is emitted, so the one in-flight pipeline run is
undisturbed. -/
theorem textInput_busy_noop (md5hex8 : String → String) (st : ServerState)
    (text : String) (o : TurnOracle)
    (h : st.session.isProcessing = true) :
    textInput md5hex8 st text o = (st, []) := by
  simp [textInput, textInputGuard, h]

/-- Concrete instance of C5: a busy session ignores `text-input`. -/
theorem textInput_busy_noop_witness :
    busyServer.session.isProcessing = true ∧
    textInput md5w busyServer "hello" turnOracleOk = (busyServer, []) :=
  ⟨rfl, textInput_busy_noop md5w busyServer "hello" turnOracleOk rfl⟩

/-- C7 counterexample: the `reset` handler runs while the session is busy
(so it is not restricted to the Idle state — it even clears the busy
flag), and it leaves the session's active custom character in place,
contradicting both halves of the claim. -/
theorem reset_keeps_custom_character_counterexample :
    busyCustomServer.session.isProcessing = true ∧
    (resetHandler busyCustomServer).1.session.conversationHistory = [] ∧
    (resetHandler busyCustomServer).1.session.isProcessing = false ∧
    (resetHandler busyCustomServer).1.activeCustomCharacter =
      some ⟨"/videos/custom_variants/x.mp4", "joy", "pirate", true⟩ := by
  refine ⟨rfl, rfl, rfl, rfl⟩

/-- C7 (amended): `reset` clears the conversation history and the busy
flag in every state (it is not gated on Idle), emits `reset-complete`,
and leaves the active custom character — and the shared cache — exactly
as they were (only the reset phrases inside `text-input` clear the
active custom character). -/
theorem resetHandler_effects (st : ServerState) :
    (resetHandler st).1.session.conversationHistory = [] ∧
    (resetHandler st).1.session.isProcessing = false ∧
    (resetHandler st).1.activeCustomCharacter = st.activeCustomCharacter ∧
    (resetHandler st).1.cache = st.cache ∧
    (resetHandler st).1.session.clientType = st.session.clientType ∧
    (resetHandler st).2 = [SEvent.resetComplete] :=
  ⟨rfl, rfl, rfl, rfl, rfl, rfl⟩

/-- C6 counterexample: a `text-input` run starts (busy set, user turn
appended), `interrupt` fires at the `generateResponse` suspension point —
busy is cleared and Idle is forced, as the claim says — but when the
suspended run resumes it still emits its `conversation-complete` bundle:
nothing in the handler checks a generation token (or the busy flag)
before broadcasting, so the interrupted run's results are not
discarded. -/
theorem interrupt_midrun_still_broadcasts_counterexample :
    (interruptHandler
        (textInputPhase1 idleServer "hello").1).1.session.isProcessing
      = false ∧
    (interruptHandler (textInputPhase1 idleServer "hello").1).2 =
      [SEvent.status "idle"] ∧
    ((textInputPhase2 md5w
        (interruptHandler (textInputPhase1 idleServer "hello").1).1
        "hello" "ok" genOracleOk (some "QUJD")).2.any isConvComplete)
      = true := by
  refine ⟨rfl, rfl, rfl⟩

/-- C6 (amended): `interrupt` immediately clears the busy flag and emits
the Idle status, but it does not stop an in-flight pipeline run: whatever
the state after the interrupt and whatever the collaborators return
(voice success or failure), the resumed remainder of the run still emits
a `conversation-complete` bundle — in-flight results are broadcast, not
discarded. -/
theorem interrupt_clears_busy_but_inflight_run_completes
    (md5hex8 : String → String) (st : ServerState)
    (text response : String) (genO : GenOracle)
    (audioO : Option String) :
    (interruptHandler st).1.session.isProcessing = false ∧
    (interruptHandler st).2 = [SEvent.status "idle"] ∧
    ((textInputPhase2 md5hex8 (interruptHandler st).1 text response genO
        audioO).2.any isConvComplete) = true := by
  refine ⟨rfl, rfl, ?_⟩
  cases audioO with
  | some buf => simp [textInputPhase2, isConvComplete]
  | none => simp [textInputPhase2, isConvComplete]

/-- C9 counterexample: on the audio-submission path, a voice-synthesis
failure does not complete the turn — the handler emits only an error
event and the idle status; no `conversation-complete` bundle (and no
`display-content`) carries the reply text or video. -/
theorem audioPath_voiceFailure_no_completion_counterexample :
    turnOracleNoAudio.audio = none ∧
    (audioForTranscription md5w idleServer (.ok "hi")
        turnOracleNoAudio).2 =
      [SEvent.status "transcribing", SEvent.transcriptionResult "hi",
       SEvent.status "thinking", SEvent.status "generating-audio",
       SEvent.errorEvent "Failed to generate audio",
       SEvent.status "idle"] ∧
    ((audioForTranscription md5w idleServer (.ok "hi")
        turnOracleNoAudio).2.any isConvComplete) = false := by
  refine ⟨rfl, rfl, rfl⟩

theorem notCustomVideo_standardVideoField (v : Option VideoInfo) :
    notCustomVideo (standardVideoField v) = true := by
  cases v <;> rfl

/-- C9 (amended): on the `text-input` path a voice-synthesis failure
still completes the turn: a `conversation-complete` bundle is emitted —
and `display-content` is broadcast when hologram displays are attached —
with a null audio field, the `Failed to generate audio` annotation and
the reply text; the bundle's video field however carries only the
standard-path `video` local (never a custom-character video, which is
dropped on this path). -/
theorem textInput_voiceFailure_still_completes (md5hex8 : String → String)
    (st : ServerState) (text : String) (o : TurnOracle)
    (hbusy : st.session.isProcessing = false)
    (htrim : jsTrim text ≠ "")
    (haudio : o.audio = none) :
    notCustomVideo (standardVideoField
      (phase2Resolve md5hex8 (textInputPhase1 st text).1 text o.response
        o.gen).video) = true ∧
    SEvent.conversationComplete
      ⟨text, o.response, detectEmotionFromText text o.response, none,
       standardVideoField (phase2Resolve md5hex8
         (textInputPhase1 st text).1 text o.response o.gen).video,
       none, some "Failed to generate audio"⟩ ∈
      (textInput md5hex8 st text o).2 ∧
    (0 < st.holograms →
      SEvent.displayContent
        ⟨none, standardVideoField (phase2Resolve md5hex8
           (textInputPhase1 st text).1 text o.response o.gen).video,
         o.response, detectEmotionFromText text o.response, none⟩ ∈
        (textInput md5hex8 st text o).2) := by
  have htext : ¬(text = "") := by
    intro he
    exact htrim (by rw [he]; rfl)
  have hguard : textInputGuard st text = false := by
    simp [textInputGuard, hbusy, htext, htrim]
  refine ⟨notCustomVideo_standardVideoField _, ?_, ?_⟩
  · simp only [textInput, hguard, Bool.false_eq_true, if_false,
      textInputPhase2, haudio]
    simp [List.mem_append]
  · intro hn
    simp only [textInput, hguard, Bool.false_eq_true, if_false,
      textInputPhase2, haudio]
    simp [List.mem_append, List.mem_replicate]
    right
    right
    simp [textInputPhase1]
    omega

/-- Concrete instance of the amended C9: a text turn whose voice
synthesis throws still emits a completion bundle with null audio and the
error annotation. -/
theorem textInput_voiceFailure_still_completes_witness :
    idleServer.session.isProcessing = false ∧
    jsTrim "hi" ≠ "" ∧
    turnOracleNoAudio.audio = none ∧
    SEvent.conversationComplete
      ⟨"hi", turnOracleNoAudio.response,
       detectEmotionFromText "hi" turnOracleNoAudio.response, none,
       standardVideoField (phase2Resolve md5w
         (textInputPhase1 idleServer "hi").1 "hi"
         turnOracleNoAudio.response turnOracleNoAudio.gen).video,
       none, some "Failed to generate audio"⟩ ∈
      (textInput md5w idleServer "hi" turnOracleNoAudio).2 :=
  ⟨rfl, by decide, rfl,
   (textInput_voiceFailure_still_completes md5w idleServer "hi"
     turnOracleNoAudio rfl (by decide) rfl).2.1⟩

theorem firstNonemptyBucket_skip (m : List (String × List VideoInfo))
    (pre rest : List String)
    (hpre : ∀ g ∈ pre, (m.lookup g).getD [] = []) :
    firstNonemptyBucket m (pre ++ rest) = firstNonemptyBucket m rest := by
  induction pre with
  | nil => rfl
  | cons g tl ih =>
    have hg := hpre g (by simp)
    have htl : ∀ g' ∈ tl, (m.lookup g').getD [] = [] := fun g' h' =>
      hpre g' (by simp [h'])
    simp only [List.cons_append, firstNonemptyBucket]
    rcases hl : m.lookup g with _ | vs
    · exact ih htl
    · rcases vs with _ | ⟨v, vs'⟩
      · exact ih htl
      · rw [hl] at hg
        simp at hg

theorem head?_take_one {α : Type} (l : List α) :
    (l.take 1).head? = l.head? := by
  cases l <;> rfl

/-- C8: `getVideoForEmotion` (initialized, `preferRecent` default) —
(i) when the requested emotion's bucket is non-empty it returns that
bucket's head (an asset indexed for that emotion); (ii) when the bucket
is empty it returns the head of the bucket of the first fallback emotion
in the chain that has one; (iii) when the whole chain is exhausted it
returns the best-effort head of all available assets — `none` exactly
when no assets exist.  Termination is inherent: the function is a total
Lean function over a finite fallback chain. -/
theorem getVideoForEmotion_spec (st : MapperState) (emotion : String)
    (hinit : st.initialized = true) :
    (∀ v vs,
      st.emotionVideoMap.lookup (jsToLower emotion) = some (v :: vs) →
      getVideoForEmotion st emotion = some v) ∧
    (∀ pre f post v vs,
      (fallbackTable.lookup (jsToLower emotion)).getD ["neutral"]
          = pre ++ f :: post →
      (∀ g ∈ pre, (st.emotionVideoMap.lookup g).getD [] = []) →
      (st.emotionVideoMap.lookup (jsToLower emotion)).getD [] = [] →
      st.emotionVideoMap.lookup f = some (v :: vs) →
      getVideoForEmotion st emotion = some v) ∧
    ((st.emotionVideoMap.lookup (jsToLower emotion)).getD [] = [] →
      (∀ g ∈ (fallbackTable.lookup (jsToLower emotion)).getD ["neutral"],
        (st.emotionVideoMap.lookup g).getD [] = []) →
      getVideoForEmotion st emotion = st.availableVideos.head?) := by
  refine ⟨?_, ?_, ?_⟩
  · intro v vs hl
    simp [getVideoForEmotion, hinit, hl]
  · intro pre f post v vs hchain hpre hempty hf
    have hwalk : firstNonemptyBucket st.emotionVideoMap (pre ++ f :: post)
        = some (v :: vs) := by
      rw [firstNonemptyBucket_skip st.emotionVideoMap pre (f :: post) hpre]
      simp [firstNonemptyBucket, hf]
    simp [getVideoForEmotion, hinit, hempty, getFallbackVideos, hchain,
      hwalk]
  · intro hempty hall
    have hwalk : firstNonemptyBucket st.emotionVideoMap
        ((fallbackTable.lookup (jsToLower emotion)).getD ["neutral"])
          = none := by
      have := firstNonemptyBucket_skip st.emotionVideoMap
        ((fallbackTable.lookup (jsToLower emotion)).getD ["neutral"]) []
        hall
      simpa using this
    simp [getVideoForEmotion, hinit, hempty, getFallbackVideos, hwalk,
      head?_take_one]

/-- Concrete instance of C8: with only a disgust asset indexed, the
request for "Anger" (empty anger bucket) resolves through the anger
fallback chain `[disgust, fear, neutral]` to the disgust asset. -/
theorem getVideoForEmotion_spec_witness :
    mapperW.initialized = true ∧
    getVideoForEmotion mapperW "Anger" = some disgustVideo :=
  ⟨rfl,
   (getVideoForEmotion_spec mapperW "Anger" rfl).2.1 [] "disgust"
     ["fear", "neutral"] disgustVideo [] rfl (by simp) rfl rfl⟩

theorem findEmotionKeyword_mem :
    ∀ (table : List (String × List String)) (p : List Char)
      (emo kw : String),
    findEmotionKeyword table p = some (emo, kw) →
    emo ∈ table.map Prod.fst := by
  intro table
  induction table with
  | nil =>
    intro p emo kw h
    simp [findEmotionKeyword] at h
  | cons hd tl ih =>
    intro p emo kw h
    obtain ⟨emo', kws⟩ := hd
    simp only [findEmotionKeyword] at h
    rcases hf : kws.find? (fun kw => containsSub p kw.data) with _ | kw'
    · rw [hf] at h
      exact List.mem_cons_of_mem _ (ih p emo kw h)
    · rw [hf] at h
      injection h with h'
      injection h' with h₁ h₂
      subst h₁
      simp

/-- C10: for every input string, `parseUserRequest` returns an emotion
drawn from the eight fixed tags and a non-empty description; when the
keyword/article/whitespace cleanup leaves nothing, the description
defaults to `"character"`. -/
theorem parseUserRequest_wellformed (s : String) :
    (parseUserRequest s).emotion ∈
      (["joy", "anger", "fear", "disgust", "anxiety", "sadness", "calm",
        "neutral"] : List String) ∧
    (parseUserRequest s).customDescription ≠ "" ∧
    ((cleanedDescription s).isEmpty = true →
      (parseUserRequest s).customDescription = "character") := by
  refine ⟨?_, ?_, ?_⟩
  · simp only [parseUserRequest]
    rcases hf : findEmotionKeyword emotionKeywords
        (s.data.map Char.toLower) with _ | ⟨emo, kw⟩
    · simp [detectedKeywordPair, hf]
    · have hm := findEmotionKeyword_mem emotionKeywords _ emo kw hf
      simp only [detectedKeywordPair, hf]
      simp only [emotionKeywords, List.map_cons, List.map_nil,
        List.mem_cons, List.not_mem_nil, or_false] at hm
      rcases hm with h | h | h | h | h | h | h <;> simp [h]
  · simp only [parseUserRequest]
    by_cases he : (cleanedDescription s).isEmpty = true
    · simp [he]
    · rw [if_neg (by simp [he])]
      intro hc
      have hdata := congrArg String.data hc
      simp only [String.data] at hdata
      exact he (by simp [show cleanedDescription s = [] from hdata])
  · intro he
    simp [parseUserRequest, he]

end PocketSoul

namespace PocketSoul

/-- C3: `generateCacheKey` is deterministic (equal raw inputs give equal
keys) and factors through normalization: any two (emotion, description)
pairs whose normalizations (lowercasing, non-alphanumerics replaced) agree
are mapped to the same fingerprint, for every digest function. -/
theorem generateCacheKey_deterministic_and_factors
    (md5hex8 : String → String) (e₁ d₁ e₂ d₂ : String) :
    generateCacheKey md5hex8 e₁ d₁ = generateCacheKey md5hex8 e₁ d₁ ∧
    (normalizeKey (e₁ ++ "_" ++ d₁) = normalizeKey (e₂ ++ "_" ++ d₂) →
      generateCacheKey md5hex8 e₁ d₁ = generateCacheKey md5hex8 e₂ d₂) := by
  refine ⟨rfl, fun h => ?_⟩
  simp only [generateCacheKey, h]

/-- Concrete instance of C3: "Joy"/"Cowboy!" and "joy"/"cowboy?" normalize
identically, hence receive the same fingerprint. -/
theorem generateCacheKey_deterministic_and_factors_witness :
    normalizeKey ("Joy" ++ "_" ++ "Cowboy!") =
      normalizeKey ("joy" ++ "_" ++ "cowboy?") ∧
    generateCacheKey (fun s => s.take 8) "Joy" "Cowboy!" =
      generateCacheKey (fun s => s.take 8) "joy" "cowboy?" := by
  have h : normalizeKey ("Joy" ++ "_" ++ "Cowboy!") =
      normalizeKey ("joy" ++ "_" ++ "cowboy?") := by decide
  exact ⟨h, (generateCacheKey_deterministic_and_factors
    (fun s => s.take 8) "Joy" "Cowboy!" "joy" "cowboy?").2 h⟩

end PocketSoul
